import Mathlib

/-!
Verification development for the miniqueue message broker: a shallow
embedding of the broker (Publish / Subscribe / NotifyConsumer) and of the
streaming protocol handler (the subscribe command loop, the publish HTTP
handler and the isDisconnect classifier) from the Go source, with theorems
settling the specified behaviour.

External collaborators (the durable store, the consumer method results and
the transport reads) are injected as explicit parameters, so each embedded
function is the pure decision logic of its source function.
-/

namespace Miniqueue

/-- Message payloads: the source declares `type value = []byte`; bytes are
modelled as naturals. -/
abbrev value := List Nat

/-- Outcome of a non-blocking send (a Go `select` with a `default` arm) on a
channel of capacity `cap` currently holding `queued` buffered elements:
delivered directly to a waiting receiver, placed into free buffer space, or
dropped by the `default` arm. -/
inductive SendResult where
  | delivered
  | buffered
  | dropped
deriving DecidableEq, Repr

/-- Semantics of `select { case ch <- v: default: }`: hand off to a waiting
receiver if any, otherwise buffer when capacity allows, otherwise take the
`default` arm (drop). It never blocks the sender. -/
def trySend (cap queued : Nat) (receiverWaiting : Bool) : SendResult :=
  if receiverWaiting then .delivered
  else if queued < cap then .buffered
  else .dropped

/-- One consumer as registered by the broker: `id`, `topic`, and the
capacity of its wake channel `eventChan` (the store handle and notifier
back-pointer carry no state relevant here). -/
structure Consumer where
  id : String
  topic : String
  eventChanCap : Nat
deriving DecidableEq, Repr

/-- Broker state: the per-topic durable store queue and the per-topic
consumer registry (`consumers map[string][]consumer`). -/
structure BrokerState where
  store : String → List value
  consumers : String → List Consumer

/-- The empty broker, as built by `newBroker`: empty registry, empty store. -/
def emptyBroker : BrokerState :=
  { store := fun _ => [], consumers := fun _ => [] }

/-- `broker.Subscribe(topic)`: construct a new consumer for the topic with a
fresh id and wake channel `make(chan eventType)` — capacity 0 — and append
it to the end of the consumer sequence of the topic. The Go function acquires
the registry write lock and cannot fail; here it is a total function. -/
def subscribe (b : BrokerState) (topic newId : String) : BrokerState × Consumer :=
  let cons : Consumer := { id := newId, topic := topic, eventChanCap := 0 }
  ({ b with
      consumers := fun t => if t = topic then b.consumers t ++ [cons] else b.consumers t },
   cons)

/-- `broker.NotifyConsumer(topic, ev)`: scan the consumer sequence of the topic
in registration order; on each consumer attempt a non-blocking send on its
wake channel, returning at the first consumer whose send is accepted, else
fall through to the next (`default:` noop). `awaiting c` injects whether a
receiver is currently ready on the wake channel of `c`. The result is the
consumer that was woken, if any; the broker state is untouched. -/
def notifyConsumer (cs : List Consumer) (awaiting : Consumer → Bool) : Option Consumer :=
  match cs with
  | [] => none
  | c :: rest =>
    match trySend c.eventChanCap 0 (awaiting c) with
    | .dropped => notifyConsumer rest awaiting
    | _ => some c

/-- `broker.Publish(topic, val)`: insert into the store (a store failure is
injected as `insertErr`); on failure return that error unchanged with no
notification; on success append to the topic queue, run the notification
step and return success together with the woken consumer, if any. -/
def publish (b : BrokerState) (topic : String) (v : value) (insertErr : Option String)
    (awaiting : Consumer → Bool) : Except String (BrokerState × Option Consumer) :=
  match insertErr with
  | some e => .error e
  | none =>
    let b' : BrokerState :=
      { b with store := fun t => if t = topic then b.store t ++ [v] else b.store t }
    .ok (b', notifyConsumer (b'.consumers topic) awaiting)

/-- The broker operations visible on the registry, for stating registry
invariants: a publish (with its injected store outcome), a subscribe, a bare
notification, and shutdown. -/
inductive BrokerOp where
  | pubOp (topic : String) (v : value) (insertErr : Option String)
  | subOp (topic : String) (newId : String)
  | notifyOp (topic : String)
  | shutdownOp

/-- Effect of one broker operation on the broker state. `NotifyConsumer`
only reads the registry; `Shutdown` closes the store handle and touches no
registry entry. -/
def applyOp (b : BrokerState) (awaiting : Consumer → Bool) : BrokerOp → BrokerState
  | .pubOp t v ie =>
    match publish b t v ie awaiting with
    | .error _ => b
    | .ok (b', _) => b'
  | .subOp t i => (subscribe b t i).1
  | .notifyOp _ => b
  | .shutdownOp => b

/-! Protocol-level constants, verbatim from server.go. -/

def CmdInit : String := "INIT"

def CmdAck : String := "ACK"

def CmdNack : String := "NACK"

def errInvalidTopicValue : String := "invalid topic value"

def errReadBody : String := "error reading the request body"

def errPublish : String := "error publishing to broker"

def errNextValue : String := "error getting next value for consumer"

def errAck : String := "error ACKing message"

def errNack : String := "error NACKing message"

def errDecodingCmd : String := "error decoding command"

def errRequestCancelled : String := "request context cancelled"

/-- Whether `pat` is a prefix of `s`, on character lists. -/
def isPrefixCL : List Char → List Char → Bool
  | [], _ => true
  | _ :: _, [] => false
  | a :: pat, b :: s => if a = b then isPrefixCL pat s else false

/-- Whether `pat` occurs as a contiguous substring of the character list. -/
def containsCL (pat : List Char) : List Char → Bool
  | [] => isPrefixCL pat []
  | c :: rest => isPrefixCL pat (c :: rest) || containsCL pat rest

/-- Go `strings.Contains(s, pat)`. -/
def strContains (s pat : String) : Bool :=
  containsCL pat.toList s.toList

/-- `isDisconnect(err)` from server.go: the error is non-nil (`none` models
a nil Go error) and its text contains "client disconnected" or "; CANCEL". -/
def isDisconnect (err : Option String) : Bool :=
  match err with
  | none => false
  | some msg => strContains msg "client disconnected" || strContains msg "; CANCEL"

/-- One frame written to the client by the subscribe handler: an error
frame (via respondError) or a message frame (via respondMsg). -/
inductive Frame where
  | errorFrame (msg : String)
  | msgFrame (m : value)
deriving DecidableEq, Repr

/-- A consumer method invocation performed by the handler. -/
inductive CCall where
  | ackCall
  | nackCall
  | nextCall
deriving DecidableEq, Repr

/-- Result of `cons.Next(ctx)` as seen by the handler: a message, the
dedicated cancellation error (`errors.Is(err, errRequestCancelled)`), or
any other error. -/
inductive NextRes where
  | gotMsg (m : value)
  | cancelled
  | nextErr (msg : String)
deriving DecidableEq, Repr

/-- Injected results of the consumer methods for one loop iteration
(`none` = the call succeeds, `some e` = it fails with error text `e`). -/
structure ConsumerOracle where
  ackRes : Option String
  nackRes : Option String
  nextRes : NextRes
deriving DecidableEq, Repr

/-- What one iteration of the subscribe command loop did: the frames
written, the consumer methods called in order, and whether the loop
continues to the next iteration (`return` ends it). -/
structure StepOut where
  frames : List Frame
  calls : List CCall
  continues : Bool
deriving DecidableEq, Repr

/-- Result of decoding one command from the request body: a command string,
or a decode error with text `msg`. -/
inductive ReadRes where
  | okCmd (cmd : String)
  | readErr (msg : String)
deriving DecidableEq, Repr

/-- The `Next` handling block shared verbatim by the INIT, ACK and NACK
arms of the loop: on the cancellation error return silently; on another
error write one `errNextValue` frame and return; on success write the
message frame and continue. -/
def handleNext (res : NextRes) : StepOut :=
  match res with
  | .cancelled => { frames := [], calls := [.nextCall], continues := false }
  | .nextErr _ => { frames := [.errorFrame errNextValue], calls := [.nextCall], continues := false }
  | .gotMsg m => { frames := [.msgFrame m], calls := [.nextCall], continues := true }

/-- One iteration of the subscribe handler loop, from server.go lines
156-263. Read failure: if classified as a disconnect, Nack (failure only
logged), write nothing, return; else write one `errDecodingCmd` frame and
return. INIT: `Next` then the shared handling. ACK / NACK: `Ack` / `Nack`;
on failure one error frame and return; on success `Next` with the shared
handling. Any other command: one error frame, loop continues. -/
def subscribeStep (read : ReadRes) (o : ConsumerOracle) : StepOut :=
  match read with
  | .readErr msg =>
    if isDisconnect (some msg) then
      { frames := [], calls := [.nackCall], continues := false }
    else
      { frames := [.errorFrame errDecodingCmd], calls := [], continues := false }
  | .okCmd cmd =>
    if cmd = CmdInit then
      handleNext o.nextRes
    else if cmd = CmdAck then
      match o.ackRes with
      | some _ => { frames := [.errorFrame errAck], calls := [.ackCall], continues := false }
      | none =>
        let n := handleNext o.nextRes
        { frames := n.frames, calls := .ackCall :: n.calls, continues := n.continues }
    else if cmd = CmdNack then
      match o.nackRes with
      | some _ => { frames := [.errorFrame errNack], calls := [.nackCall], continues := false }
      | none =>
        let n := handleNext o.nextRes
        { frames := n.frames, calls := .nackCall :: n.calls, continues := n.continues }
    else
      { frames := [.errorFrame "unrecognised command received"], calls := [], continues := true }

/-- Modelled from the spec: respondError and its flush writer are not under
src/; the spec gives the JSON error object written to the client as
\x7b"error": "<message>"\x7d. -/
def jsonError (msg : String) : String :=
  "\x7b\"error\": \"" ++ msg ++ "\"\x7d"

/-- An HTTP response of the publish endpoint: status code and body. -/
structure HttpResponse where
  status : Nat
  body : String
deriving DecidableEq, Repr

/-- The publish HTTP handler (`publish(broker)` in server.go): missing
topic path variable gives 400 with the invalid-topic JSON error; a body
read failure gives 500 with the read-body JSON error; a broker publish
failure gives 500 with the publish JSON error; otherwise 201 with no
body. Read and publish outcomes are injected. -/
def publishHandler (topicVar : Option String) (bodyRead : Except String value)
    (pubErr : Option String) : HttpResponse :=
  match topicVar with
  | none => { status := 400, body := jsonError errInvalidTopicValue }
  | some _ =>
    match bodyRead with
    | .error _ => { status := 500, body := jsonError errReadBody }
    | .ok _ =>
      match pubErr with
      | some _ => { status := 500, body := jsonError errPublish }
      | none => { status := 201, body := "" }

/-- A concrete oracle whose consumer calls all succeed and whose `Next` is
cancelled, used to instantiate the loop theorems. -/
def oracle0 : ConsumerOracle :=
  { ackRes := none, nackRes := none, nextRes := NextRes.cancelled }

/-- A concrete oracle whose Ack and Nack fail and whose `Next` returns the
bytes "hi". -/
def oracle1 : ConsumerOracle :=
  { ackRes := some "ack boom", nackRes := some "nack boom", nextRes := NextRes.gotMsg [104, 105] }

/-- A concrete oracle whose consumer calls succeed and whose `Next` fails
with a non-cancellation error. -/
def oracle2 : ConsumerOracle :=
  { ackRes := none, nackRes := none, nextRes := NextRes.nextErr "store fetch failed" }

end Miniqueue
namespace Miniqueue

/-! Substring correctness: the Boolean containment test used by
`isDisconnect` agrees with the existence of a decomposition. -/

/-- `isPrefixCL pat s` holds exactly when `s` extends `pat`. -/
theorem isPrefixCL_iff (pat s : List Char) :
    isPrefixCL pat s = true ↔ ∃ rest, s = pat ++ rest := by
  induction pat generalizing s with
  | nil => simp [isPrefixCL]
  | cons a pat ih =>
    cases s with
    | nil => simp [isPrefixCL]
    | cons b s =>
      by_cases hab : a = b
      · subst hab
        simp [isPrefixCL, ih]
      · constructor
        · intro h
          simp [isPrefixCL, hab] at h
        · rintro ⟨rest, hr⟩
          injection hr with h1 h2
          exact absurd h1.symm hab

/-- `containsCL pat s` holds exactly when `pat` occurs contiguously in `s`. -/
theorem containsCL_iff (pat s : List Char) :
    containsCL pat s = true ↔ ∃ pre post, s = pre ++ (pat ++ post) := by
  induction s with
  | nil =>
    rw [show containsCL pat [] = isPrefixCL pat [] from rfl, isPrefixCL_iff]
    constructor
    · rintro ⟨r, hr⟩
      exact ⟨[], r, by simpa using hr⟩
    · rintro ⟨pre, post, h⟩
      rcases List.append_eq_nil.mp h.symm with ⟨h1, h2⟩
      exact ⟨post, h2.symm⟩
  | cons c rest ih =>
    simp only [containsCL, Bool.or_eq_true, isPrefixCL_iff, ih]
    constructor
    · rintro (⟨r, hr⟩ | ⟨pre, post, h⟩)
      · exact ⟨[], r, by simpa using hr⟩
      · exact ⟨c :: pre, post, by simp [h]⟩
    · rintro ⟨pre, post, h⟩
      cases pre with
      | nil => exact Or.inl ⟨post, by simpa using h⟩
      | cons p ps =>
        injection h with h1 h2
        exact Or.inr ⟨ps, post, h2⟩

/-- Go `strings.Contains` agrees with substring decomposition on the
underlying character lists. -/
theorem strContains_iff (s pat : String) :
    strContains s pat = true ↔ ∃ pre post, s.toList = pre ++ (pat.toList ++ post) :=
  containsCL_iff pat.toList s.toList

end Miniqueue
namespace Miniqueue

/-- Claim C1: the notification step scans the topic consumer sequence in
registration order attempting a non-blocking send on each wake signal,
stops at the first consumer whose signal accepts the send (so at most one
consumer — the earliest-registered awaiting one — is woken), and when no
consumer is awaiting, the notification is dropped: the scan returns
nothing, and a publish still creates exactly the published queue entry and
leaves the registry untouched, woken consumer or not. -/
theorem notify_wakes_first_awaiting (cs : List Consumer) (aw : Consumer → Bool)
    (hcap : ∀ c ∈ cs, c.eventChanCap = 0) :
    notifyConsumer cs aw = cs.find? aw
    ∧ ((∀ c ∈ cs, aw c = false) → notifyConsumer cs aw = none)
    ∧ ∀ (b : BrokerState) (t : String) (v : value) (b' : BrokerState) (w : Option Consumer),
        publish b t v none aw = Except.ok (b', w) →
          b'.store t = b.store t ++ [v] ∧ b'.consumers = b.consumers := by
  have main : notifyConsumer cs aw = cs.find? aw := by
    induction cs with
    | nil => rfl
    | cons c rest ih =>
      have hc : c.eventChanCap = 0 := hcap c (by simp)
      have hrest : ∀ x ∈ rest, x.eventChanCap = 0 := fun x hx => hcap x (by simp [hx])
      cases haw : aw c with
      | false =>
        rw [List.find?_cons_of_neg _ (by simp [haw])]
        simpa [notifyConsumer, trySend, hc, haw] using ih hrest
      | true =>
        rw [List.find?_cons_of_pos _ (by simp [haw])]
        simp [notifyConsumer, trySend, hc, haw]
  refine ⟨main, ?_, ?_⟩
  · intro hall
    rw [main, List.find?_eq_none]
    intro x hx
    simp [hall x hx]
  · intro b t v b' w h
    have h' : (Except.ok
        ({ b with store := fun t2 => if t2 = t then b.store t2 ++ [v] else b.store t2 },
          notifyConsumer (b.consumers t) aw) :
            Except String (BrokerState × Option Consumer)) = Except.ok (b', w) := h
    rw [Except.ok.injEq, Prod.mk.injEq] at h'
    obtain ⟨hb, _⟩ := h'
    subst hb
    exact ⟨by simp, rfl⟩

/-- Witness for C1 on a concrete registry: one consumer registered by
subscribe, nobody awaiting, so the notification is dropped. -/
theorem notify_wakes_first_awaiting_witness :
    notifyConsumer [(subscribe emptyBroker "t" "c1").2] (fun _ => false) = none :=
  (notify_wakes_first_awaiting [(subscribe emptyBroker "t" "c1").2] (fun _ => false)
      (by decide)).2.1 (by decide)

/-- Claim C2: a command read failing as a client disconnect makes the
handler call Nack exactly once, write no frame, and end the loop; the Nack
result is never consulted for output (a Nack failure is only logged). -/
theorem disconnect_implicit_nack (msg : String) (o : ConsumerOracle)
    (h : isDisconnect (some msg) = true) :
    subscribeStep (ReadRes.readErr msg) o =
      { frames := [], calls := [CCall.nackCall], continues := false } := by
  simp [subscribeStep, h]

/-- Witness for C2 at the read error "client disconnected" with an oracle
whose Nack fails: still no frame, one Nack, loop over. -/
theorem disconnect_implicit_nack_witness :
    subscribeStep (ReadRes.readErr "client disconnected") oracle1 =
      { frames := [], calls := [CCall.nackCall], continues := false } :=
  disconnect_implicit_nack "client disconnected" oracle1 (by decide)

/-- Counterexample to claim C3: on a malformed command (a decode error not
classified as a disconnect) the handler writes one error frame and ENDS the
loop — `continues` is false, where the claim requires the loop to continue. -/
theorem malformed_command_ends_loop_cx :
    subscribeStep (ReadRes.readErr "invalid character at top level") oracle0 =
      { frames := [Frame.errorFrame errDecodingCmd], calls := [], continues := false }
    ∧ (subscribeStep (ReadRes.readErr "invalid character at top level") oracle0).continues
        ≠ true := by
  decide

/-- Claim C3 as amended: a malformed command (decode failure that is not a
disconnect) is fatal — exactly one error frame is written and the loop
ends; an unrecognised command token is non-fatal — exactly one error frame
is written and the loop continues. -/
theorem malformed_fatal_unrecognised_nonfatal (msg cmd : String) (o : ConsumerOracle) :
    (isDisconnect (some msg) = false →
      subscribeStep (ReadRes.readErr msg) o =
        { frames := [Frame.errorFrame errDecodingCmd], calls := [], continues := false })
    ∧ (cmd ≠ CmdInit → cmd ≠ CmdAck → cmd ≠ CmdNack →
      subscribeStep (ReadRes.okCmd cmd) o =
        { frames := [Frame.errorFrame "unrecognised command received"], calls := [],
          continues := true }) := by
  constructor
  · intro h
    simp [subscribeStep, h]
  · intro h1 h2 h3
    simp [subscribeStep, h1, h2, h3]

/-- Counterexample to claim C4: the wake channel created by Subscribe is
`make(chan eventType)` with capacity 0, so a non-blocking send with no
receiver ready is dropped and never buffered — it is not a single-slot
buffer. -/
theorem wake_channel_zero_capacity_cx :
    trySend ((subscribe emptyBroker "t" "c1").2.eventChanCap) 0 false = SendResult.dropped
    ∧ trySend ((subscribe emptyBroker "t" "c1").2.eventChanCap) 0 false
        ≠ SendResult.buffered := by
  decide

/-- Claim C4 as amended: each consumer wake signal is an unbuffered
(zero-capacity) rendezvous channel used with non-blocking sends: a send
never blocks the publisher, is delivered exactly when the consumer is
currently receiving, and is dropped otherwise; no wake is ever buffered. -/
theorem wake_channel_rendezvous (b : BrokerState) (t i : String) (q : Nat) (r : Bool) :
    (subscribe b t i).2.eventChanCap = 0
    ∧ trySend ((subscribe b t i).2.eventChanCap) q r =
        (if r then SendResult.delivered else SendResult.dropped) := by
  refine ⟨rfl, ?_⟩
  cases r <;> simp [subscribe, trySend]

/-- Claim C5: Publish first inserts via the store; a store insert error is
returned unchanged with no notification performed; on success the payload
sits at the tail of the topic queue, the registry is unchanged, and the
notification step runs for that topic. -/
theorem publish_inserts_then_notifies (b : BrokerState) (t : String) (v : value)
    (aw : Consumer → Bool) :
    (∀ e, publish b t v (some e) aw = Except.error e)
    ∧ ∃ b', publish b t v none aw = Except.ok (b', notifyConsumer (b.consumers t) aw)
        ∧ b'.store t = b.store t ++ [v]
        ∧ b'.consumers = b.consumers := by
  refine ⟨fun e => rfl, ?_⟩
  exact ⟨{ b with store := fun t2 => if t2 = t then b.store t2 ++ [v] else b.store t2 },
    rfl, by simp, rfl⟩

/-- Claim C6: on ACK (resp. NACK), a failing Ack (resp. Nack) produces
exactly one error frame and ends the loop; a successful one is followed
immediately by Next, handled exactly as the INIT arm handles it, with the
Ack (resp. Nack) call prepended. -/
theorem ack_nack_then_next (o : ConsumerOracle) :
    (∀ e, o.ackRes = some e →
      subscribeStep (ReadRes.okCmd CmdAck) o =
        { frames := [Frame.errorFrame errAck], calls := [CCall.ackCall], continues := false })
    ∧ (o.ackRes = none →
      subscribeStep (ReadRes.okCmd CmdAck) o =
        { frames := (subscribeStep (ReadRes.okCmd CmdInit) o).frames,
          calls := CCall.ackCall :: (subscribeStep (ReadRes.okCmd CmdInit) o).calls,
          continues := (subscribeStep (ReadRes.okCmd CmdInit) o).continues })
    ∧ (∀ e, o.nackRes = some e →
      subscribeStep (ReadRes.okCmd CmdNack) o =
        { frames := [Frame.errorFrame errNack], calls := [CCall.nackCall], continues := false })
    ∧ (o.nackRes = none →
      subscribeStep (ReadRes.okCmd CmdNack) o =
        { frames := (subscribeStep (ReadRes.okCmd CmdInit) o).frames,
          calls := CCall.nackCall :: (subscribeStep (ReadRes.okCmd CmdInit) o).calls,
          continues := (subscribeStep (ReadRes.okCmd CmdInit) o).continues }) := by
  obtain ⟨a, nk, nx⟩ := o
  refine ⟨?_, ?_, ?_, ?_⟩
  · intro e he
    cases he
    rfl
  · intro ha
    cases ha
    rfl
  · intro e he
    cases he
    rfl
  · intro hn
    cases hn
    rfl

/-- Claim C7: when Next reports the dedicated cancellation condition the
handler ends the loop silently — no frame, Next was the last consumer call
of the iteration — while any other Next error yields exactly one error
frame before the loop ends; the INIT arm is precisely this shared Next
handling. -/
theorem next_cancellation_silent (o : ConsumerOracle) :
    subscribeStep (ReadRes.okCmd CmdInit) o = handleNext o.nextRes
    ∧ (o.nextRes = NextRes.cancelled →
        handleNext o.nextRes = { frames := [], calls := [CCall.nextCall], continues := false })
    ∧ (∀ e, o.nextRes = NextRes.nextErr e →
        handleNext o.nextRes =
          { frames := [Frame.errorFrame errNextValue], calls := [CCall.nextCall],
            continues := false }) := by
  refine ⟨rfl, ?_, ?_⟩
  · intro h
    rw [h]
    rfl
  · intro e h
    rw [h]
    rfl

/-- Claim C8: Subscribe is total (never fails), appends the freshly built
consumer — bound to the requested topic — at the end of the consumer
sequence of that topic, leaves all other topics untouched, and every broker
operation only extends the consumer sequence of a topic: the registry grows
for the life of the process. -/
theorem subscribe_total_registry_grows (b : BrokerState) (t i t2 : String)
    (aw : Consumer → Bool) (op : BrokerOp) :
    (subscribe b t i).1.consumers t = b.consumers t ++ [(subscribe b t i).2]
    ∧ (subscribe b t i).2.topic = t
    ∧ (∀ t', t' ≠ t → (subscribe b t i).1.consumers t' = b.consumers t')
    ∧ ∃ ext, (applyOp b aw op).consumers t2 = b.consumers t2 ++ ext := by
  refine ⟨by simp [subscribe], rfl, fun t' h => by simp [subscribe, h], ?_⟩
  cases op with
  | pubOp t3 v ie =>
    cases ie with
    | none => exact ⟨[], by simp [applyOp, publish]⟩
    | some e => exact ⟨[], by simp [applyOp, publish]⟩
  | subOp t3 i3 =>
    by_cases h : t2 = t3
    · exact ⟨[(subscribe b t3 i3).2], by simp [applyOp, subscribe, h]⟩
    · exact ⟨[], by simp [applyOp, subscribe, h]⟩
  | notifyOp t3 => exact ⟨[], by simp [applyOp]⟩
  | shutdownOp => exact ⟨[], by simp [applyOp]⟩

/-- Claim C9: the publish endpoint answers 400 with the invalid-topic JSON
error when the topic path segment is missing, 500 with a JSON error body
when the body read or the broker publish fails, and 201 with an empty body
on success. -/
theorem publish_endpoint_responses (t e : String) (v : value)
    (br : Except String value) (pe : Option String) :
    publishHandler none br pe = { status := 400, body := jsonError errInvalidTopicValue }
    ∧ publishHandler (some t) (Except.error e) pe =
        { status := 500, body := jsonError errReadBody }
    ∧ (∀ e2, publishHandler (some t) (Except.ok v) (some e2) =
        { status := 500, body := jsonError errPublish })
    ∧ publishHandler (some t) (Except.ok v) none = { status := 201, body := "" } :=
  ⟨rfl, rfl, fun _ => rfl, rfl⟩

/-- Claim C10: a read error is classified as a disconnect exactly when it
is non-nil and its text contains the substring "client disconnected" or the
substring "; CANCEL" (nil is never a disconnect); any other non-nil read
error is fatal, producing exactly one error-decoding-command frame before
the loop ends, while a disconnect produces the silent Nack path. -/
theorem disconnect_classification (msg : String) (o : ConsumerOracle) :
    (isDisconnect (some msg) = true ↔
      (∃ pre post, msg.toList = pre ++ (("client disconnected").toList ++ post))
      ∨ ∃ pre post, msg.toList = pre ++ (("; CANCEL").toList ++ post))
    ∧ isDisconnect none = false
    ∧ (isDisconnect (some msg) = false →
        subscribeStep (ReadRes.readErr msg) o =
          { frames := [Frame.errorFrame errDecodingCmd], calls := [], continues := false })
    ∧ (isDisconnect (some msg) = true →
        subscribeStep (ReadRes.readErr msg) o =
          { frames := [], calls := [CCall.nackCall], continues := false }) := by
  refine ⟨?_, rfl, ?_, ?_⟩
  · show (strContains msg "client disconnected" || strContains msg "; CANCEL") = true ↔ _
    rw [Bool.or_eq_true, strContains_iff, strContains_iff]
  · intro h
    simp [subscribeStep, h]
  · intro h
    simp [subscribeStep, h]

end Miniqueue
